import Mathlib

/-!
Shallow embedding of the refitt_pipeline repository (two Python source files:
`src/refitt_pipeline/facilities/ztf.py` and `src/refitt_pipeline/plotting.py`)
together with theorems settling the frozen specification claims.

Modelling conventions:
- A pandas numeric cell that may be NaN is `Option ℚ` (`none` = NaN/absent);
  a cell that the claims never exercise as NaN is plain `ℚ`.
- A Python dict of locus properties is an association list with first-match
  lookup (`getProp`); `dict.get(k, None)` is total lookup, `dict[k]` raises
  `KeyError` when absent, modelled by `Except PyError`.
- A pandas DataFrame is a list of rows; the index that the source assigns
  (`lc.index = [id] * len(lc)`) is carried as the first component of each
  row pair, or as the `idx` field of a nested row.
- The external ANTARES lookup (`get_by_ztf_object_id`) is an opaque
  collaborator, passed as a function parameter `lookup` returning either a
  locus or a fetch-layer error.
- `ThreadPoolExecutor` / `as_completed` in `query_ztf_lightcurves` yield the
  successful results in an arbitrary completion order; the embedding takes
  the completion-ordered identifier list as its argument, and every batch
  theorem is quantified over all lists, hence over all completion orders.
- `tqdm` (a progress bar) and `to_parquet` persistence carry no data
  semantics and are not modelled.
-/

/-- A value stored in a locus property mapping (string or numeric scalar). -/
inductive PropVal where
  | pstr (v : String)
  | pnum (v : ℚ)
deriving DecidableEq, Repr

/-- One raw measurement row of `locus.lightcurve`, restricted to the six
columns the source selects.  `ant_mag`, `ant_magerr`, `ant_maglim` are float
columns that may hold NaN, hence `Option ℚ`. -/
structure Measurement where
  ant_mjd : ℚ
  ant_survey : ℤ
  ant_passband : String
  ant_mag : Option ℚ
  ant_magerr : Option ℚ
  ant_maglim : Option ℚ
deriving DecidableEq, Repr

/-- A raw record from the ANTARES database as the source consumes it: a
measurement list, a flat property mapping, and sky coordinates. -/
structure Locus where
  lightcurve : List Measurement
  properties : List (String × PropVal)
  ra : ℚ
  dec : ℚ
deriving DecidableEq, Repr

/-- Python `locus.properties.get(key, None)`: total dict lookup. -/
def getProp (props : List (String × PropVal)) (key : String) : Option PropVal :=
  (props.find? (fun p => p.1 = key)).map (fun p => p.2)

/-- A Python exception raised inside the normalizers (`dict[k]` on a missing
key raises `KeyError`). -/
inductive PyError where
  | keyError
deriving DecidableEq, Repr

/-- The value of the `non_detection` column after
`lc["non_detection"].replace([1, 2], [False, True])`: matched survey tags
become booleans, every other tag passes through as the raw integer. -/
inductive NonDetVal where
  | boolVal (b : Bool)
  | rawVal (z : ℤ)
deriving DecidableEq, Repr

/-- One row of the normalized lightcurve table produced by
`format_antares_lc` (the `ant_maglim` column has been dropped, so no such
field exists here). -/
structure LcRow where
  mjd : ℚ
  non_detection : NonDetVal
  band : String
  magnitude : Option ℚ
  magnitude_error : Option ℚ
deriving DecidableEq, Repr

/-- `lc["non_detection"].replace([1, 2], [False, True])`, per element. -/
def replaceSurvey (z : ℤ) : NonDetVal :=
  if z = 1 then .boolVal false
  else if z = 2 then .boolVal true
  else .rawVal z

/-- The band replacement of `format_antares_lc`, per element:
`replace(["g", "R", "r", "G", "i", "I"], ["ztfg", "ztfr", "ztfr", "ztfg", "ztfi", "ztfi"])`. -/
def replaceBand (b : String) : String :=
  if b = "g" then "ztfg"
  else if b = "R" then "ztfr"
  else if b = "r" then "ztfr"
  else if b = "G" then "ztfg"
  else if b = "i" then "ztfi"
  else if b = "I" then "ztfi"
  else b

/-- The per-measurement transformation of `format_antares_lc`:
`fillna` of `ant_mag` with `ant_maglim`, column renames, value replacement. -/
def formatRow (m : Measurement) : LcRow :=
  { mjd := m.ant_mjd
    non_detection := replaceSurvey m.ant_survey
    band := replaceBand m.ant_passband
    magnitude := match m.ant_mag with
      | some v => some v
      | none => m.ant_maglim
    magnitude_error := m.ant_magerr }

/-- The six columns `format_antares_lc` selects from `locus.lightcurve`. -/
def selectedColumns : List String :=
  ["ant_mjd", "ant_survey", "ant_passband", "ant_mag", "ant_magerr", "ant_maglim"]

/-- The column renaming dictionary of `format_antares_lc`. -/
def renameColumn (c : String) : String :=
  if c = "ant_mjd" then "mjd"
  else if c = "ant_survey" then "non_detection"
  else if c = "ant_passband" then "band"
  else if c = "ant_mag" then "magnitude"
  else if c = "ant_magerr" then "magnitude_error"
  else c

/-- The columns of the DataFrame returned by `format_antares_lc`: the six
selected columns, with `ant_maglim` dropped, then renamed. -/
def lcOutputColumns : List String :=
  (selectedColumns.filter (fun c => c ≠ "ant_maglim")).map renameColumn

/-- `format_antares_lc(locus)`.  The result is the list of output rows, each
paired with its index label; the final `lc.index = [locus.properties["ztf_object_id"]] * len(lc)`
raises `KeyError` when the property is missing. -/
def formatAntaresLc (locus : Locus) : Except PyError (List (PropVal × LcRow)) :=
  match getProp locus.properties "ztf_object_id" with
  | none => .error .keyError
  | some v => .ok (locus.lightcurve.map (fun m => (v, formatRow m)))

/-- The single metadata row built by `format_antares_meta`: the ten named
scalar properties looked up with `.get(key, None)`, plus `ra` and `dec`. -/
structure MetaRow where
  ztf_object_id : Option PropVal
  num_mag_values : Option PropVal
  num_alerts : Option PropVal
  brightest_alert_magnitude : Option PropVal
  brightest_alert_observation_time : Option PropVal
  newest_alert_magnitude : Option PropVal
  newest_alert_observation_time : Option PropVal
  oldest_alert_magnitude : Option PropVal
  oldest_alert_observation_time : Option PropVal
  survey : Option PropVal
  ra : ℚ
  dec : ℚ
deriving DecidableEq, Repr

/-- `format_antares_meta(locus)`: builds the one-row DataFrame from
`.get(key, None)` lookups, then sets the index from
`locus.properties["ztf_object_id"]`, which raises `KeyError` when that key is
missing.  The result pairs the index label with the row. -/
def formatAntaresMeta (locus : Locus) : Except PyError (PropVal × MetaRow) :=
  let row : MetaRow :=
    { ztf_object_id := getProp locus.properties "ztf_object_id"
      num_mag_values := getProp locus.properties "num_mag_values"
      num_alerts := getProp locus.properties "num_alerts"
      brightest_alert_magnitude := getProp locus.properties "brightest_alert_magnitude"
      brightest_alert_observation_time := getProp locus.properties "brightest_alert_observation_time"
      newest_alert_magnitude := getProp locus.properties "newest_alert_magnitude"
      newest_alert_observation_time := getProp locus.properties "newest_alert_observation_time"
      oldest_alert_magnitude := getProp locus.properties "oldest_alert_magnitude"
      oldest_alert_observation_time := getProp locus.properties "oldest_alert_observation_time"
      survey := getProp locus.properties "survey"
      ra := locus.ra
      dec := locus.dec }
  match getProp locus.properties "ztf_object_id" with
  | none => .error .keyError
  | some v => .ok (v, row)

/-- A fetch-layer error inside one `query_ztf_lightcurve` task: the external
lookup may report no match or a transport failure, and the normalizers may
raise a Python error; `query_ztf_lightcurves` catches all of these with one
bare `except Exception`. -/
inductive FetchError where
  | lookupNotFound
  | lookupTransport
  | pyErr (e : PyError)
deriving DecidableEq, Repr

/-- The pair returned by one successful `query_ztf_lightcurve` call: the
indexed lightcurve table and the indexed one-row metadata table. -/
def FetchResult : Type :=
  List (PropVal × LcRow) × (PropVal × MetaRow)

/-- `query_ztf_lightcurve(ztf_object_id)`: one external lookup followed by
both normalizers.  The external collaborator `get_by_ztf_object_id` is the
parameter `lookup`.  As in the source tuple expression
`format_antares_lc(locus), format_antares_meta(locus)`, the lightcurve
normalizer runs first, so its error preempts the metadata normalizer. -/
def queryZtfLightcurve (lookup : String → Except FetchError Locus)
    (ztfObjectId : String) : Except FetchError FetchResult :=
  match lookup ztfObjectId with
  | .error e => .error e
  | .ok locus =>
    match formatAntaresLc locus with
    | .error e => .error (.pyErr e)
    | .ok lc =>
      match formatAntaresMeta locus with
      | .error e => .error (.pyErr e)
      | .ok meta => .ok (lc, meta)

/-- One top-level row of the nested dataframe built by `lcs_to_nested_df`:
the index label, the metadata row, and the `lightcurve` sub-table holding
the lightcurve rows whose index matches this row's index. -/
structure NestedRow where
  idx : PropVal
  meta : MetaRow
  lightcurve : List (PropVal × LcRow)
deriving DecidableEq, Repr

/-- `lcs_to_nested_df(lightcurves, meta)`: `NestedFrame(meta)` keeps one
top-level row per metadata row, and `add_nested(lightcurves, "lightcurve")`
(a left join on the index, the nested_pandas default) attaches to each base
row the lightcurve rows sharing its index label; base rows with no matching
lightcurve rows are kept with an empty sub-table. -/
def lcsToNestedDf (lightcurves : List (PropVal × LcRow))
    (meta : List (PropVal × MetaRow)) : List NestedRow :=
  meta.map (fun p =>
    { idx := p.1
      meta := p.2
      lightcurve := lightcurves.filter (fun q => q.1 = p.1) })

/-- `.reset_index(drop=True)` on the nested dataframe: the identifier index
is discarded and rows are re-keyed by dense position. -/
def resetIndexDrop (nested : List NestedRow) :
    List (MetaRow × List (PropVal × LcRow)) :=
  nested.map (fun r => (r.meta, r.lightcurve))

/-- An error escaping a `query_ztf_lightcurves` batch call.
`valueErrorNoObjects` embeds the pandas `ValueError` ("No objects to
concatenate") that `pd.concat` raises on an empty list.
`emptyBatchError` is modelled from the spec: the spec's error taxonomy names
a dedicated `EmptyBatchError` for the all-failures batch, but no such class
exists anywhere in the source; the constructor is included so that the
spec's sentence can be stated and compared against what the code raises. -/
inductive BatchError where
  | valueErrorNoObjects
  | emptyBatchError
deriving DecidableEq, Repr

/-- The per-identifier collection loop of `query_ztf_lightcurves`: each
future's result is appended on success and silently skipped on any
exception.  `ztfObjectIds` is taken in completion order (see the module
comment); `tqdm` is a no-op for the data. -/
def collectResults (lookup : String → Except FetchError Locus)
    (ztfObjectIds : List String) : List FetchResult :=
  ztfObjectIds.filterMap (fun i => (queryZtfLightcurve lookup i).toOption)

/-- The assembly step of `query_ztf_lightcurves` on the collected pairs:
`pd.concat` of the lightcurve tables (stacking rows in collection order),
`pd.concat` of the one-row metadata tables, then `lcs_to_nested_df`. -/
def assembleFromResults (results : List FetchResult) : List NestedRow :=
  lcsToNestedDf ((results.map (fun r => r.1)).flatten) (results.map (fun r => r.2))

/-- `query_ztf_lightcurves(ztf_object_ids, ...)`: fan out one task per
identifier, collect the successes, `pd.concat` the lightcurves and the
metadata rows (raising the pandas `ValueError` when there is nothing to
concatenate), assemble the nested frame and reset its index.  Persistence
(`save_path`) only writes the returned frame and is not modelled. -/
def queryZtfLightcurves (lookup : String → Except FetchError Locus)
    (ztfObjectIds : List String) :
    Except BatchError (List (MetaRow × List (PropVal × LcRow))) :=
  let results := collectResults lookup ztfObjectIds
  match results with
  | [] => .error .valueErrorNoObjects
  | _ => .ok (resetIndexDrop (assembleFromResults results))

/-- One row of the lightcurve table as `plot_light_curve` consumes it
(the normalized schema; `mjd` is a float column, so `Option ℚ` with `none`
for NaN).  The plotting code compares `non_detection` with the booleans
`False`/`True`, so the column is boolean here. -/
structure PlotRow where
  mjd : Option ℚ
  non_detection : Bool
  band : String
  magnitude : ℚ
  magnitude_error : ℚ
deriving DecidableEq, Repr

/-- Pointwise subtraction on float cells: NaN propagates. -/
def subCell (a b : Option ℚ) : Option ℚ :=
  match a, b with
  | some x, some y => some (x - y)
  | _, _ => none

/-- Binary minimum on ℚ, written out so that it evaluates by kernel
reduction. -/
def minQ (a b : ℚ) : ℚ :=
  if Rat.blt b a then b else a

/-- Minimum of a list of ℚ values; `none` on the empty list. -/
def listMinQ : List ℚ → Option ℚ
  | [] => none
  | x :: xs => some (xs.foldl minQ x)

/-- `lightcurve[lightcurve["non_detection"] == False]["mjd"].min()`:
the minimum `mjd` over the detection rows, skipping NaN cells (the pandas
`skipna` default); `none` models the NaN that `.min()` returns on an
empty or all-NaN selection. -/
def detectionMjdMin (lc : List PlotRow) : Option ℚ :=
  listMinQ ((lc.filter (fun r => r.non_detection = false)).filterMap (fun r => r.mjd))

/-- The state of the caller's `lightcurve` dataframe after
`plot_light_curve(lightcurve, ..., time_axis=timeAxis)` returns: the guard
`if time_axis != "mjd"` overwrites the `mjd` column in place with
`lightcurve["mjd"] - detectionMjdMin`, and otherwise the frame is left
untouched.  Rendering (the matplotlib calls) has no effect on the frame. -/
def plotLightCurveFrameAfter (lightcurve : List PlotRow) (timeAxis : String) :
    List PlotRow :=
  if timeAxis = "mjd" then lightcurve
  else lightcurve.map (fun r => { r with mjd := subCell r.mjd (detectionMjdMin lightcurve) })

/-! Sample data used by witnesses and counterexamples. -/

/-- A measurement whose magnitude is NaN but whose detection limit is
present (the fallback case). -/
def sampleMeasA : Measurement :=
  { ant_mjd := 10, ant_survey := 1, ant_passband := "g",
    ant_mag := none, ant_magerr := some (1/10), ant_maglim := some 20 }

/-- A measurement with both magnitude and detection limit NaN. -/
def sampleMeasNaN : Measurement :=
  { ant_mjd := 11, ant_survey := 2, ant_passband := "g",
    ant_mag := none, ant_magerr := none, ant_maglim := none }

/-- A well-formed locus with one measurement. -/
def sampleLocusA : Locus :=
  { lightcurve := [sampleMeasA],
    properties := [("ztf_object_id", PropVal.pstr "ZTF21abc")],
    ra := 1, dec := 2 }

/-- A locus whose only measurement has NaN in both magnitude columns. -/
def sampleLocusNaN : Locus :=
  { lightcurve := [sampleMeasNaN],
    properties := [("ztf_object_id", PropVal.pstr "ZTF21nan")],
    ra := 0, dec := 0 }

/-- A locus exposing a property mapping and coordinates but whose mapping
lacks the key "ztf_object_id". -/
def sampleLocusNoId : Locus :=
  { lightcurve := [],
    properties := [("survey", PropVal.pnum 1)],
    ra := 3, dec := 4 }

/-- A metadata row with every optional property absent. -/
def sampleMetaRow : MetaRow :=
  { ztf_object_id := some (PropVal.pstr "ZTFX"),
    num_mag_values := none, num_alerts := none,
    brightest_alert_magnitude := none, brightest_alert_observation_time := none,
    newest_alert_magnitude := none, newest_alert_observation_time := none,
    oldest_alert_magnitude := none, oldest_alert_observation_time := none,
    survey := none, ra := 0, dec := 0 }

/-- A lookup collaborator that succeeds on one identifier and reports
not-found on every other. -/
def sampleLookup : String → Except FetchError Locus :=
  fun i => if i = "ZTF21abc" then Except.ok sampleLocusA
           else Except.error FetchError.lookupNotFound

/-! Helper lemmas shared across claims. -/

/-- The collected lightcurve table of `format_antares_lc`, position by
position. -/
theorem formatAntaresLc_ok_eq (locus : Locus) (v : PropVal)
    (hv : getProp locus.properties "ztf_object_id" = some v) :
    formatAntaresLc locus
      = Except.ok (locus.lightcurve.map (fun m => (v, formatRow m))) := by
  unfold formatAntaresLc
  rw [hv]

/-- Length of a filterMap as a length of a filter. -/
theorem length_filterMap_eq_length_filter {α β : Type} (f : α → Option β) (l : List α) :
    (l.filterMap f).length = (l.filter (fun a => (f a).isSome)).length := by
  induction l with
  | nil => rfl
  | cons a t ih =>
    cases h : f a <;> simp [List.filterMap_cons, List.filter_cons, h, ih]

/-- The rows kept by a filter and those kept by its negation partition the
list. -/
theorem length_filter_add_length_filter_not {α : Type} (p : α → Bool) (l : List α) :
    (l.filter p).length + (l.filter (fun a => !(p a))).length = l.length := by
  induction l with
  | nil => rfl
  | cons a t ih =>
    cases h : p a <;> simp [List.filter_cons, h] <;> omega

/-- C2: for every raw record with a non-empty measurement list accepted by
`format_antares_lc`, each measurement whose raw `ant_mag` is NaN yields an
output row whose `magnitude` equals that measurement's raw `ant_maglim`
value exactly, and the dropped detection-limit column `ant_maglim` is not
among the output table's columns. -/
theorem c2_magnitude_fallback (locus : Locus) (out : List (PropVal × LcRow))
    (h : formatAntaresLc locus = Except.ok out)
    (i : ℕ) (hi : i < locus.lightcurve.length) (hio : i < out.length)
    (hmag : (locus.lightcurve.get ⟨i, hi⟩).ant_mag = none) :
    (out.get ⟨i, hio⟩).2.magnitude = (locus.lightcurve.get ⟨i, hi⟩).ant_maglim
      ∧ "ant_maglim" ∉ lcOutputColumns := by
  refine ⟨?_, by decide⟩
  unfold formatAntaresLc at h
  cases hv : getProp locus.properties "ztf_object_id" with
  | none => rw [hv] at h; exact absurd h (by simp)
  | some v =>
    rw [hv] at h
    simp only [Except.ok.injEq] at h
    subst h
    rw [List.get_eq_getElem] at hmag
    simp [List.get_eq_getElem, formatRow, hmag]

/-- C2 witness at a concrete locus. -/
theorem c2_magnitude_fallback_witness :
    ([(PropVal.pstr "ZTF21abc", formatRow sampleMeasA)].get
        ⟨0, by decide⟩).2.magnitude
      = (sampleLocusA.lightcurve.get ⟨0, by decide⟩).ant_maglim
      ∧ "ant_maglim" ∉ lcOutputColumns :=
  c2_magnitude_fallback sampleLocusA
    [(PropVal.pstr "ZTF21abc", formatRow sampleMeasA)] rfl 0
    (by decide) (by decide) rfl

/-- C3 counterexample: the claim "no row of the returned lightcurve table
has the absent sentinel in its magnitude column" fails on the accepted
record `sampleLocusNaN`, whose single measurement has NaN in both `ant_mag`
and `ant_maglim`: `fillna` leaves the magnitude NaN. -/
theorem c3_counterexample :
    ¬ (∀ (locus : Locus) (out : List (PropVal × LcRow)),
        formatAntaresLc locus = Except.ok out →
          ∀ p ∈ out, p.2.magnitude ≠ none) := by
  intro h
  have hout := h sampleLocusNaN
    [(PropVal.pstr "ZTF21nan", formatRow sampleMeasNaN)] rfl
    (PropVal.pstr "ZTF21nan", formatRow sampleMeasNaN) (by simp)
  exact hout rfl

/-- C3 amended: for every raw record accepted by `format_antares_lc` in
which each measurement with an absent raw magnitude has a present raw
detection-limit value, no output row has the absent sentinel in its
magnitude column. -/
theorem c3_no_absent_magnitude (locus : Locus) (out : List (PropVal × LcRow))
    (h : formatAntaresLc locus = Except.ok out)
    (hlim : ∀ m ∈ locus.lightcurve, m.ant_mag = none → m.ant_maglim ≠ none) :
    ∀ p ∈ out, p.2.magnitude ≠ none := by
  unfold formatAntaresLc at h
  cases hv : getProp locus.properties "ztf_object_id" with
  | none => rw [hv] at h; exact absurd h (by simp)
  | some v =>
    rw [hv] at h
    simp only [Except.ok.injEq] at h
    subst h
    intro p hp
    simp only [List.mem_map] at hp
    obtain ⟨m, hm, rfl⟩ := hp
    simp only [formatRow]
    cases hmag : m.ant_mag with
    | some w => simp
    | none => simpa using hlim m hm hmag

/-- C3 amended witness at a concrete locus and a concrete output row. -/
theorem c3_no_absent_magnitude_witness :
    ((PropVal.pstr "ZTF21abc", formatRow sampleMeasA)).2.magnitude ≠ none :=
  c3_no_absent_magnitude sampleLocusA
    [(PropVal.pstr "ZTF21abc", formatRow sampleMeasA)] rfl
    (by intro m hm hmag; simp [sampleLocusA, sampleMeasA] at hm; simp [hm, sampleMeasA])
    (PropVal.pstr "ZTF21abc", formatRow sampleMeasA) (by simp)

/-- C5 counterexample: the claim "normalize_metadata succeeds for every raw
record that exposes a property mapping and a coordinate pair" fails on
`sampleLocusNoId`, which exposes both but whose mapping lacks the key
"ztf_object_id": the index assignment `locus.properties["ztf_object_id"]`
raises `KeyError`. -/
theorem c5_counterexample :
    ¬ (∀ locus : Locus, ∃ out, formatAntaresMeta locus = Except.ok out) := by
  intro h
  obtain ⟨out, hout⟩ := h sampleLocusNoId
  rw [show formatAntaresMeta sampleLocusNoId = Except.error PyError.keyError from rfl]
    at hout
  exact Except.noConfusion hout

/-- C5 amended: `format_antares_meta` succeeds for every raw record whose
property mapping contains "ztf_object_id"; each of the other nine named
scalar properties missing from the mapping is replaced by the explicit
absent marker in the one-row output (every output field equals the total
`.get`-style lookup of its key), and no error is raised for those missing
keys. -/
theorem c5_missing_properties_to_none (locus : Locus) (v : PropVal)
    (hv : getProp locus.properties "ztf_object_id" = some v) :
    ∃ out, formatAntaresMeta locus = Except.ok out
      ∧ out.1 = v
      ∧ out.2.ztf_object_id = some v
      ∧ out.2.num_mag_values = getProp locus.properties "num_mag_values"
      ∧ out.2.num_alerts = getProp locus.properties "num_alerts"
      ∧ out.2.brightest_alert_magnitude
          = getProp locus.properties "brightest_alert_magnitude"
      ∧ out.2.brightest_alert_observation_time
          = getProp locus.properties "brightest_alert_observation_time"
      ∧ out.2.newest_alert_magnitude
          = getProp locus.properties "newest_alert_magnitude"
      ∧ out.2.newest_alert_observation_time
          = getProp locus.properties "newest_alert_observation_time"
      ∧ out.2.oldest_alert_magnitude
          = getProp locus.properties "oldest_alert_magnitude"
      ∧ out.2.oldest_alert_observation_time
          = getProp locus.properties "oldest_alert_observation_time"
      ∧ out.2.survey = getProp locus.properties "survey"
      ∧ out.2.ra = locus.ra ∧ out.2.dec = locus.dec := by
  refine ⟨?_, ?_, ?_⟩
  · exact (v, { ztf_object_id := getProp locus.properties "ztf_object_id"
                num_mag_values := getProp locus.properties "num_mag_values"
                num_alerts := getProp locus.properties "num_alerts"
                brightest_alert_magnitude :=
                  getProp locus.properties "brightest_alert_magnitude"
                brightest_alert_observation_time :=
                  getProp locus.properties "brightest_alert_observation_time"
                newest_alert_magnitude :=
                  getProp locus.properties "newest_alert_magnitude"
                newest_alert_observation_time :=
                  getProp locus.properties "newest_alert_observation_time"
                oldest_alert_magnitude :=
                  getProp locus.properties "oldest_alert_magnitude"
                oldest_alert_observation_time :=
                  getProp locus.properties "oldest_alert_observation_time"
                survey := getProp locus.properties "survey"
                ra := locus.ra
                dec := locus.dec })
  · unfold formatAntaresMeta
    rw [hv]
  · simp [hv]

/-- C5 amended witness: a locus carrying only the identifier property has
every optional metadata field absent and still succeeds. -/
theorem c5_missing_properties_to_none_witness :
    ∃ out, formatAntaresMeta
        { lightcurve := [],
          properties := [("ztf_object_id", PropVal.pstr "ZTFW")],
          ra := 5, dec := 6 } = Except.ok out
      ∧ out.1 = PropVal.pstr "ZTFW"
      ∧ out.2.ztf_object_id = some (PropVal.pstr "ZTFW")
      ∧ out.2.num_mag_values = getProp [("ztf_object_id", PropVal.pstr "ZTFW")]
          "num_mag_values"
      ∧ out.2.num_alerts = getProp [("ztf_object_id", PropVal.pstr "ZTFW")]
          "num_alerts"
      ∧ out.2.brightest_alert_magnitude
          = getProp [("ztf_object_id", PropVal.pstr "ZTFW")] "brightest_alert_magnitude"
      ∧ out.2.brightest_alert_observation_time
          = getProp [("ztf_object_id", PropVal.pstr "ZTFW")] "brightest_alert_observation_time"
      ∧ out.2.newest_alert_magnitude
          = getProp [("ztf_object_id", PropVal.pstr "ZTFW")] "newest_alert_magnitude"
      ∧ out.2.newest_alert_observation_time
          = getProp [("ztf_object_id", PropVal.pstr "ZTFW")] "newest_alert_observation_time"
      ∧ out.2.oldest_alert_magnitude
          = getProp [("ztf_object_id", PropVal.pstr "ZTFW")] "oldest_alert_magnitude"
      ∧ out.2.oldest_alert_observation_time
          = getProp [("ztf_object_id", PropVal.pstr "ZTFW")] "oldest_alert_observation_time"
      ∧ out.2.survey = getProp [("ztf_object_id", PropVal.pstr "ZTFW")] "survey"
      ∧ out.2.ra = 5 ∧ out.2.dec = 6 :=
  c5_missing_properties_to_none
    { lightcurve := [],
      properties := [("ztf_object_id", PropVal.pstr "ZTFW")],
      ra := 5, dec := 6 }
    (PropVal.pstr "ZTFW") rfl

/-- C7: the value-mapping step of `format_antares_lc` maps survey tag 1 to
`non_detection = false` and 2 to `non_detection = true`, maps bands g and G
to ztfg, r and R to ztfr, i and I to ztfi, leaves every other survey tag or
band value unchanged; and for any accepted record whose measurement bands
all lie in {g, G, r, R, i, I}, every output row's band lies in
{ztfg, ztfr, ztfi}. -/
theorem c7_value_mapping :
    replaceSurvey 1 = NonDetVal.boolVal false
      ∧ replaceSurvey 2 = NonDetVal.boolVal true
      ∧ (∀ z : ℤ, z ≠ 1 → z ≠ 2 → replaceSurvey z = NonDetVal.rawVal z)
      ∧ (replaceBand "g" = "ztfg" ∧ replaceBand "G" = "ztfg"
          ∧ replaceBand "r" = "ztfr" ∧ replaceBand "R" = "ztfr"
          ∧ replaceBand "i" = "ztfi" ∧ replaceBand "I" = "ztfi")
      ∧ (∀ b : String, b ∉ (["g", "G", "r", "R", "i", "I"] : List String) →
          replaceBand b = b)
      ∧ (∀ (locus : Locus) (out : List (PropVal × LcRow)),
          formatAntaresLc locus = Except.ok out →
          (∀ m ∈ locus.lightcurve,
            m.ant_passband ∈ (["g", "G", "r", "R", "i", "I"] : List String)) →
          ∀ p ∈ out, p.2.band ∈ (["ztfg", "ztfr", "ztfi"] : List String)) := by
  refine ⟨rfl, rfl, ?_, by decide, ?_, ?_⟩
  · intro z h1 h2
    simp [replaceSurvey, h1, h2]
  · intro b hb
    simp only [List.mem_cons, List.not_mem_nil, or_false, not_or] at hb
    obtain ⟨h1, h2, h3, h4, h5, h6⟩ := hb
    simp [replaceBand, h1, h2, h3, h4, h5, h6]
  · intro locus out h hbands p hp
    unfold formatAntaresLc at h
    cases hv : getProp locus.properties "ztf_object_id" with
    | none => rw [hv] at h; exact absurd h (by simp)
    | some v =>
      rw [hv] at h
      simp only [Except.ok.injEq] at h
      subst h
      simp only [List.mem_map] at hp
      obtain ⟨m, hm, rfl⟩ := hp
      have hband := hbands m hm
      simp only [formatRow]
      simp only [List.mem_cons, List.not_mem_nil, or_false] at hband
      rcases hband with h | h | h | h | h | h <;> simp [replaceBand, h]

/-- C7 witness: the mapping evaluated at concrete inputs, with each
hypothesis discharged there. -/
theorem c7_value_mapping_witness :
    replaceSurvey 7 = NonDetVal.rawVal 7
      ∧ replaceBand "z" = "z"
      ∧ (∀ p ∈ [(PropVal.pstr "ZTF21abc", formatRow sampleMeasA)],
          (p.2).band ∈ (["ztfg", "ztfr", "ztfi"] : List String)) :=
  ⟨c7_value_mapping.2.2.1 7 (by decide) (by decide),
   c7_value_mapping.2.2.2.2.1 "z" (by decide),
   c7_value_mapping.2.2.2.2.2 sampleLocusA
     [(PropVal.pstr "ZTF21abc", formatRow sampleMeasA)] rfl
     (by intro m hm; simp [sampleLocusA, sampleMeasA] at hm; simp [hm, sampleMeasA])⟩

/-- C8: for every successfully normalized object, every row of the
normalized lightcurve table and the single metadata row carry as their
index key exactly the value of the source record's `ztf_object_id`
property, unchanged. -/
theorem c8_identifier_propagation (locus : Locus) (v : PropVal)
    (lcOut : List (PropVal × LcRow)) (metaOut : PropVal × MetaRow)
    (hv : getProp locus.properties "ztf_object_id" = some v)
    (hlc : formatAntaresLc locus = Except.ok lcOut)
    (hmeta : formatAntaresMeta locus = Except.ok metaOut) :
    (∀ p ∈ lcOut, p.1 = v) ∧ metaOut.1 = v := by
  constructor
  · unfold formatAntaresLc at hlc
    rw [hv] at hlc
    simp only [Except.ok.injEq] at hlc
    subst hlc
    intro p hp
    simp only [List.mem_map] at hp
    obtain ⟨m, hm, rfl⟩ := hp
    rfl
  · unfold formatAntaresMeta at hmeta
    rw [hv] at hmeta
    simp only [Except.ok.injEq] at hmeta
    subst hmeta
    rfl

/-- C8 witness at a concrete locus. -/
theorem c8_identifier_propagation_witness :
    (∀ p ∈ [(PropVal.pstr "ZTF21abc", formatRow sampleMeasA)],
      (p.1) = PropVal.pstr "ZTF21abc")
      ∧ ((formatAntaresMeta sampleLocusA).toOption.get (by decide)).1
          = PropVal.pstr "ZTF21abc" :=
  c8_identifier_propagation sampleLocusA (PropVal.pstr "ZTF21abc")
    [(PropVal.pstr "ZTF21abc", formatRow sampleMeasA)]
    ((formatAntaresMeta sampleLocusA).toOption.get (by decide))
    rfl rfl (by rfl)

/-- The concrete lightcurve of claim C9: detections at times 10, 12, 15 and
one non-detection at time 5. -/
def samplePlotLc : List PlotRow :=
  [ { mjd := some 10, non_detection := false, band := "ztfg",
      magnitude := 18, magnitude_error := 1/10 },
    { mjd := some 12, non_detection := false, band := "ztfg",
      magnitude := 17, magnitude_error := 1/10 },
    { mjd := some 15, non_detection := false, band := "ztfr",
      magnitude := 16, magnitude_error := 1/10 },
    { mjd := some 5, non_detection := true, band := "ztfg",
      magnitude := 20, magnitude_error := 1/10 } ]

/-- C9: in relative time-axis mode, `plot_light_curve` subtracts from every
row's time the minimum time among the detection rows (`non_detection =
false` only); at the concrete lightcurve with detections at 10, 12, 15 and
a non-detection at 5 the shifted times are 0, 2, 5 and −5. -/
theorem c9_relative_time_shift (lc : List PlotRow) (m : ℚ)
    (hm : detectionMjdMin lc = some m) :
    plotLightCurveFrameAfter lc "relative"
        = lc.map (fun r => { r with mjd := subCell r.mjd (some m) })
      ∧ (plotLightCurveFrameAfter samplePlotLc "relative").map
            (fun r => r.mjd)
          = [some 0, some 2, some 5, some (-5)] := by
  constructor
  · unfold plotLightCurveFrameAfter
    rw [if_neg (by decide), hm]
  · rw [plotLightCurveFrameAfter, if_neg (by decide)]
    norm_num [samplePlotLc, detectionMjdMin, listMinQ, minQ, subCell,
      List.filter, List.filterMap, List.foldl, Rat.blt]

/-- C9 witness at the concrete lightcurve of the claim. -/
theorem c9_relative_time_shift_witness :
    plotLightCurveFrameAfter samplePlotLc "relative"
        = samplePlotLc.map (fun r => { r with mjd := subCell r.mjd (some 10) })
      ∧ (plotLightCurveFrameAfter samplePlotLc "relative").map
            (fun r => r.mjd)
          = [some 0, some 2, some 5, some (-5)] :=
  c9_relative_time_shift samplePlotLc 10 (by decide)

/-- C10: `plot_light_curve` mutates its caller's lightcurve frame in place:
for every `time_axis` value other than "mjd" (including "absolute") the
caller's `mjd` column is overwritten with the shifted values, for
`time_axis = "mjd"` the frame is left unchanged, and at a concrete input
with `time_axis = "absolute"` the overwritten frame differs from the
original. -/
theorem c10_frame_mutation :
    (∀ (lc : List PlotRow) (ta : String), ta ≠ "mjd" →
        plotLightCurveFrameAfter lc ta
          = lc.map (fun r => { r with mjd := subCell r.mjd (detectionMjdMin lc) }))
      ∧ (∀ lc : List PlotRow, plotLightCurveFrameAfter lc "mjd" = lc)
      ∧ plotLightCurveFrameAfter samplePlotLc "absolute" ≠ samplePlotLc := by
  refine ⟨?_, ?_, ?_⟩
  · intro lc ta hta
    unfold plotLightCurveFrameAfter
    rw [if_neg hta]
  · intro lc
    simp [plotLightCurveFrameAfter]
  · rw [plotLightCurveFrameAfter, if_neg (by decide)]
    norm_num [samplePlotLc, detectionMjdMin, listMinQ, minQ, subCell,
      List.filter, List.filterMap, List.foldl, Rat.blt]

/-- C10 witness: the overwrite evaluated at a concrete frame and the
time-axis value "absolute". -/
theorem c10_frame_mutation_witness :
    plotLightCurveFrameAfter samplePlotLc "absolute"
      = samplePlotLc.map
          (fun r => { r with mjd := subCell r.mjd (detectionMjdMin samplePlotLc) }) :=
  c10_frame_mutation.1 samplePlotLc "absolute" (by decide)

/-- C1 counterexample: in a batch where every lookup fails, the call raises
the pandas concatenation `ValueError`, which is not an `EmptyBatchError`
(no such error class exists in the source). -/
theorem c1_counterexample :
    queryZtfLightcurves (fun _ => Except.error FetchError.lookupNotFound)
        ["ZTF1", "ZTF2"]
      = Except.error BatchError.valueErrorNoObjects
      ∧ BatchError.valueErrorNoObjects ≠ BatchError.emptyBatchError :=
  ⟨rfl, by decide⟩

/-- C1 amended: for every batch in which every per-identifier task fails,
`query_ztf_lightcurves` raises an error rather than returning a dataset,
namely the `ValueError` that `pd.concat` raises on the empty list of
collected frames — not a dedicated `EmptyBatchError`. -/
theorem c1_all_fail_raises_concat_error
    (lookup : String → Except FetchError Locus) (ids : List String)
    (hfail : ∀ i ∈ ids, ∃ e, queryZtfLightcurve lookup i = Except.error e) :
    queryZtfLightcurves lookup ids = Except.error BatchError.valueErrorNoObjects := by
  have hnil : collectResults lookup ids = [] := by
    rw [collectResults, List.filterMap_eq_nil_iff]
    intro i hi
    obtain ⟨e, he⟩ := hfail i hi
    rw [he]
    rfl
  simp [queryZtfLightcurves, hnil]

/-- C1 amended witness: a one-element batch whose only lookup reports a
transport failure. -/
theorem c1_all_fail_raises_concat_error_witness :
    queryZtfLightcurves (fun _ => Except.error FetchError.lookupTransport)
        ["ZTFa"]
      = Except.error BatchError.valueErrorNoObjects :=
  c1_all_fail_raises_concat_error
    (fun _ => Except.error FetchError.lookupTransport) ["ZTFa"]
    (by intro i hi; exact ⟨FetchError.lookupTransport, rfl⟩)

/-- C4: for every batch of N identifiers in which exactly K per-item
fetches fail and N − K > 0 succeed, `query_ztf_lightcurves` raises no error
and the assembled nested dataset has exactly N − K top-level rows. -/
theorem c4_failure_isolation (lookup : String → Except FetchError Locus)
    (ids : List String) (K : ℕ)
    (hK : (ids.filter
        (fun i => !((queryZtfLightcurve lookup i).toOption.isSome))).length = K)
    (hpos : K < ids.length) :
    ∃ df, queryZtfLightcurves lookup ids = Except.ok df
      ∧ df.length = ids.length - K := by
  have hsplit := length_filter_add_length_filter_not
    (fun i => (queryZtfLightcurve lookup i).toOption.isSome) ids
  rw [hK] at hsplit
  have hlen : (collectResults lookup ids).length = ids.length - K := by
    rw [collectResults, length_filterMap_eq_length_filter]
    omega
  cases hr : collectResults lookup ids with
  | nil =>
    rw [hr] at hlen
    simp at hlen
    omega
  | cons a as =>
    refine ⟨resetIndexDrop (assembleFromResults (a :: as)), ?_, ?_⟩
    · simp [queryZtfLightcurves, hr]
    · have hdf : (resetIndexDrop (assembleFromResults (a :: as))).length
          = (a :: as).length := by
        simp [resetIndexDrop, assembleFromResults, lcsToNestedDf]
      rw [hdf, ← hr, hlen]

/-- C4 witness: a two-element batch with one success and one not-found
failure yields one top-level row. -/
theorem c4_failure_isolation_witness :
    ∃ df, queryZtfLightcurves sampleLookup ["ZTF21abc", "ZTFmissing"]
        = Except.ok df
      ∧ df.length = 2 - 1 :=
  c4_failure_isolation sampleLookup ["ZTF21abc", "ZTFmissing"] 1
    (by decide) (by decide)

/-- C6 counterexample: a collected pair whose object contributed zero
lightcurve rows (an accepted locus with an empty measurement list) still
produces a top-level row, so the set of top-level identifiers is strictly
larger than the set of identifiers among the merged lightcurve rows. -/
theorem c6_counterexample :
    ¬ (∀ results : List FetchResult,
        (∀ pair ∈ results, ∀ q ∈ pair.1, q.1 = pair.2.1) →
        ∀ v, (∃ r ∈ assembleFromResults results, r.idx = v)
          ↔ (∃ q ∈ (results.map (fun r => r.1)).flatten, q.1 = v)) := by
  intro h
  have hiff := h [([], (PropVal.pstr "ZTFX", sampleMetaRow))]
    (by simp) (PropVal.pstr "ZTFX")
  have htop : ∃ r ∈ assembleFromResults
      [([], (PropVal.pstr "ZTFX", sampleMetaRow))], r.idx = PropVal.pstr "ZTFX" := by
    refine ⟨{ idx := PropVal.pstr "ZTFX", meta := sampleMetaRow, lightcurve := [] },
      ?_, rfl⟩
    simp [assembleFromResults, lcsToNestedDf]
  obtain ⟨q, hq, hqv⟩ := hiff.mp htop
  simp at hq

/-- C6 amended: for every assembled nested dataset built from collected
pairs in which each pair's lightcurve rows carry the pair's own identifier
and each pair has at least one lightcurve row, the set of identifiers of
the top-level rows equals the set of identifiers across all merged
lightcurve rows.  (Without the non-emptiness hypothesis, an object with
zero lightcurve rows appears at the top level but contributes no lightcurve
identifier, as `c6_counterexample` shows.) -/
theorem c6_nested_id_consistency (results : List FetchResult)
    (hcons : ∀ pair ∈ results, ∀ q ∈ pair.1, q.1 = pair.2.1)
    (hne : ∀ pair ∈ results, pair.1 ≠ []) :
    ∀ v, (∃ r ∈ assembleFromResults results, r.idx = v)
      ↔ (∃ q ∈ (results.map (fun r => r.1)).flatten, q.1 = v) := by
  intro v
  constructor
  · rintro ⟨r, hr, rfl⟩
    simp only [assembleFromResults, lcsToNestedDf, List.mem_map] at hr
    obtain ⟨p, hp, rfl⟩ := hr
    obtain ⟨pair, hpair, rfl⟩ := hp
    cases hq : pair.1 with
    | nil => exact absurd hq (hne pair hpair)
    | cons q qs =>
      refine ⟨q, ?_, ?_⟩
      · rw [List.mem_flatten]
        exact ⟨pair.1, List.mem_map_of_mem (fun r => r.1) hpair,
          by rw [hq]; exact List.mem_cons_self q qs⟩
      · exact hcons pair hpair q (by rw [hq]; exact List.mem_cons_self q qs)
  · rintro ⟨q, hq, rfl⟩
    rw [List.mem_flatten] at hq
    obtain ⟨s, hs, hqs⟩ := hq
    obtain ⟨pair, hpair, rfl⟩ := List.mem_map.mp hs
    refine ⟨NestedRow.mk pair.2.1 pair.2.2
        (((results.map (fun r => r.1)).flatten).filter
          (fun w => w.1 = pair.2.1)), ?_, ?_⟩
    · simp only [assembleFromResults, lcsToNestedDf, List.mem_map]
      exact ⟨pair.2, ⟨pair, hpair, rfl⟩, rfl⟩
    · exact (hcons pair hpair q hqs).symm

/-- C6 amended witness: one collected pair with one lightcurve row; the
identifier appears on both sides. -/
theorem c6_nested_id_consistency_witness :
    (∃ r ∈ assembleFromResults
        [([(PropVal.pstr "ZTF21abc", formatRow sampleMeasA)],
          (PropVal.pstr "ZTF21abc", sampleMetaRow))],
        r.idx = PropVal.pstr "ZTF21abc")
      ↔ (∃ q ∈ ([([(PropVal.pstr "ZTF21abc", formatRow sampleMeasA)],
            (PropVal.pstr "ZTF21abc", sampleMetaRow))].map
              (fun r => r.1)).flatten,
          q.1 = PropVal.pstr "ZTF21abc") :=
  c6_nested_id_consistency
    [([(PropVal.pstr "ZTF21abc", formatRow sampleMeasA)],
      (PropVal.pstr "ZTF21abc", sampleMetaRow))]
    (by intro pair hp q hq
        simp only [List.mem_singleton] at hp
        subst hp
        simp only [List.mem_singleton] at hq
        subst hq
        rfl)
    (by intro pair hp
        simp only [List.mem_singleton] at hp
        subst hp
        simp)
    (PropVal.pstr "ZTF21abc")
